import Mathlib

/-
Verification of the ConnectBot native (JNI) layer: PTY-backed subprocess
lifecycle management, window-size propagation, process reaping, environment
overrides, and the East-Asian-width measuring loop.

Sources embedded:
  - app/src/main/cpp/org_mosh_MoshClient.cpp
  - app/src/main/jni/com_google_ase_Exec.cpp
  - jni/EastAsianWidth/org_connectbot_util_EastAsianWidth.c

The operating-system calls (open, grantpt, unlockpt, ptsname, fork, dup2,
ioctl, waitpid, setenv) are modelled by an environment record that fixes the
outcome of each call; the functions of the repository are translated as
deterministic functions of that record, returning the trace of calls they
perform together with the values they deliver across the JNI boundary.
-/

namespace ConnectBot

/-- Observable operating-system calls performed by the spawn, resize and wait
code paths. -/
inductive Event where
  | openPtmx (ret : Int)
  | setCloexec (fd : Int)
  | grantpt (fd : Int) (ret : Int)
  | unlockpt (fd : Int) (ret : Int)
  | ptsname (fd : Int) (ok : Bool)
  | forkCall (ret : Int)
  | prctlSetName
  | setsidCall
  | openSlave (ret : Int)
  | dup2 (src : Int) (dst : Int)
  | closeFd (fd : Int)
  | execlCall (cmd : String)
  | moshClientMain
  | exitCall (status : Nat)
  deriving DecidableEq

/-- True exactly on process-image replacement attempts. -/
def Event.isExecl : Event → Bool
  | .execlCall _ => true
  | _ => false

/-- True exactly on grantpt calls. -/
def Event.isGrantpt : Event → Bool
  | .grantpt _ _ => true
  | _ => false

/-- True exactly on close calls. -/
def Event.isCloseFd : Event → Bool
  | .closeFd _ => true
  | _ => false

/-- Outcomes of the operating-system calls made during one spawn. A negative
openPtmxRet means open of /dev/ptmx failed; nonzero grantptRet or unlockptRet
means the respective call failed; ptsnameOk is whether the slave-name lookup
succeeded; a negative forkRet means fork failed, otherwise forkRet is the child
pid seen by the parent; openSlaveRet is the descriptor the child gets for the
slave device; execlOk is whether execl replaces the child process image. -/
structure SpawnEnv where
  openPtmxRet : Int
  grantptRet : Int
  unlockptRet : Int
  ptsnameOk : Bool
  slaveName : String
  forkRet : Int
  openSlaveRet : Int
  execlOk : Bool
  deriving DecidableEq

/-- PTY-allocation prefix of create_subprocess (com_google_ase_Exec.cpp lines
86-97): open /dev/ptmx, set FD_CLOEXEC, then grantpt, unlockpt and ptsname in
short-circuit order; delivers the master descriptor and the slave name, or
none on any failure. -/
def openPtyExecPart (env : SpawnEnv) : List Event × Option (Int × String) :=
  if env.openPtmxRet < 0 then ([Event.openPtmx env.openPtmxRet], none)
  else if env.grantptRet ≠ 0 then
    ([Event.openPtmx env.openPtmxRet, Event.setCloexec env.openPtmxRet,
      Event.grantpt env.openPtmxRet env.grantptRet], none)
  else if env.unlockptRet ≠ 0 then
    ([Event.openPtmx env.openPtmxRet, Event.setCloexec env.openPtmxRet,
      Event.grantpt env.openPtmxRet env.grantptRet,
      Event.unlockpt env.openPtmxRet env.unlockptRet], none)
  else if env.ptsnameOk = false then
    ([Event.openPtmx env.openPtmxRet, Event.setCloexec env.openPtmxRet,
      Event.grantpt env.openPtmxRet env.grantptRet,
      Event.unlockpt env.openPtmxRet env.unlockptRet,
      Event.ptsname env.openPtmxRet false], none)
  else
    ([Event.openPtmx env.openPtmxRet, Event.setCloexec env.openPtmxRet,
      Event.grantpt env.openPtmxRet env.grantptRet,
      Event.unlockpt env.openPtmxRet env.unlockptRet,
      Event.ptsname env.openPtmxRet true], some (env.openPtmxRet, env.slaveName))

/-- PTY-allocation prefix of create_mosh_client (org_mosh_MoshClient.cpp lines
142-154): open /dev/ptmx, set FD_CLOEXEC, then unlockpt and ptsname_r in
short-circuit order; there is no grantpt call in this version. -/
def openPtyMoshPart (env : SpawnEnv) : List Event × Option (Int × String) :=
  if env.openPtmxRet < 0 then ([Event.openPtmx env.openPtmxRet], none)
  else if env.unlockptRet ≠ 0 then
    ([Event.openPtmx env.openPtmxRet, Event.setCloexec env.openPtmxRet,
      Event.unlockpt env.openPtmxRet env.unlockptRet], none)
  else if env.ptsnameOk = false then
    ([Event.openPtmx env.openPtmxRet, Event.setCloexec env.openPtmxRet,
      Event.unlockpt env.openPtmxRet env.unlockptRet,
      Event.ptsname env.openPtmxRet false], none)
  else
    ([Event.openPtmx env.openPtmxRet, Event.setCloexec env.openPtmxRet,
      Event.unlockpt env.openPtmxRet env.unlockptRet,
      Event.ptsname env.openPtmxRet true], some (env.openPtmxRet, env.slaveName))

/-- Exit status byte actually delivered for an exit(c) call: the operating
system keeps only the low eight bits of the argument, so exit(-1) delivers
status 255. -/
def exitStatusByte (c : Int) : Nat := (c % 256).toNat

/-- How a child branch ends: process image replaced by execl, immediate
process exit with the given status byte, or a normal return into the code that
follows the fork (the hazard the code must avoid; no branch of the embedded
child code produces it). -/
inductive ChildOutcome where
  | execed (cmd : String)
  | exited (status : Nat)
  | returnedNormally
  deriving DecidableEq

/-- True exactly when the child replaced its process image. -/
def ChildOutcome.isExeced : ChildOutcome → Bool
  | .execed _ => true
  | _ => false

/-- One run of a child branch: its call trace, how it ended, and its session
id after the setsid step. Modelled from POSIX setsid semantics: a freshly
forked child is never a process-group leader, so setsid succeeds and the new
session id equals the pid of the child. -/
structure ChildRun where
  events : List Event
  outcome : ChildOutcome
  sid : Int
  deriving DecidableEq

/-- Child branch of create_subprocess (com_google_ase_Exec.cpp lines 105-120):
setsid; open the slave device, exiting on failure; dup2 onto descriptors 0, 1
and 2; close the master; execl the command; exit(-1) if execl returned. -/
def execChild (env : SpawnEnv) (childPid ptm : Int) (cmd : String) : ChildRun :=
  if env.openSlaveRet < 0 then
    { events := [Event.setsidCall, Event.openSlave env.openSlaveRet,
        Event.exitCall (exitStatusByte (-1))]
      outcome := ChildOutcome.exited (exitStatusByte (-1))
      sid := childPid }
  else if env.execlOk then
    { events := [Event.setsidCall, Event.openSlave env.openSlaveRet,
        Event.dup2 env.openSlaveRet 0, Event.dup2 env.openSlaveRet 1,
        Event.dup2 env.openSlaveRet 2, Event.closeFd ptm, Event.execlCall cmd]
      outcome := ChildOutcome.execed cmd
      sid := childPid }
  else
    { events := [Event.setsidCall, Event.openSlave env.openSlaveRet,
        Event.dup2 env.openSlaveRet 0, Event.dup2 env.openSlaveRet 1,
        Event.dup2 env.openSlaveRet 2, Event.closeFd ptm, Event.execlCall cmd,
        Event.exitCall (exitStatusByte (-1))]
      outcome := ChildOutcome.exited (exitStatusByte (-1))
      sid := childPid }

/-- Child branch of create_mosh_client (org_mosh_MoshClient.cpp lines
162-193): prctl(PR_SET_NAME); setsid; open the slave device, exiting on
failure; dup2 onto descriptors 0, 1 and 2; close the master; call
mosh_client_main in-process (no process-image replacement); then _exit(1)
unconditionally. -/
def moshChild (env : SpawnEnv) (childPid ptm : Int) : ChildRun :=
  if env.openSlaveRet < 0 then
    { events := [Event.prctlSetName, Event.setsidCall,
        Event.openSlave env.openSlaveRet, Event.exitCall (exitStatusByte (-1))]
      outcome := ChildOutcome.exited (exitStatusByte (-1))
      sid := childPid }
  else
    { events := [Event.prctlSetName, Event.setsidCall,
        Event.openSlave env.openSlaveRet, Event.dup2 env.openSlaveRet 0,
        Event.dup2 env.openSlaveRet 1, Event.dup2 env.openSlaveRet 2,
        Event.closeFd ptm, Event.moshClientMain,
        Event.exitCall (exitStatusByte 1)]
      outcome := ChildOutcome.exited (exitStatusByte 1)
      sid := childPid }

/-- Parent-side behaviour of create_subprocess (com_google_ase_Exec.cpp lines
80-125). Returns the call trace, the int the function returns (the master
descriptor, or -1 on failure), and the write it performed through pProcessId:
none means the out-parameter was never written. -/
def create_subprocess (env : SpawnEnv) : List Event × Int × Option Int :=
  match openPtyExecPart env with
  | (tr, none) => (tr, -1, none)
  | (tr, some (ptm, _)) =>
    if env.forkRet < 0 then (tr ++ [Event.forkCall env.forkRet], -1, none)
    else (tr ++ [Event.forkCall env.forkRet], ptm, some env.forkRet)

/-- Java_com_google_ase_Exec_createSubprocess (com_google_ase_Exec.cpp lines
127-163): declares an uninitialized local procId, calls create_subprocess with
its address, and delivers the returned descriptor and the final value of
procId (written into processIdArray) to the Java caller. procId0 is the
indeterminate initial value of the uninitialized local. -/
def createSubprocess (env : SpawnEnv) (procId0 : Int) : Int × Int :=
  let r := create_subprocess env
  (r.2.1, (r.2.2).getD procId0)

/-- Parent-side behaviour of create_mosh_client (org_mosh_MoshClient.cpp
lines 135-199). The cell pPtm is assigned -1 unconditionally at entry, so its
prior value is dead; the cell pProcessId keeps its prior (indeterminate) value
pPid0 on every failure path. Returns the call trace and the final values of
the two out-cells. -/
def create_mosh_client (env : SpawnEnv) (pPid0 : Int) : List Event × Int × Int :=
  match openPtyMoshPart env with
  | (tr, none) => (tr, -1, pPid0)
  | (tr, some (ptm, _)) =>
    if env.forkRet < 0 then (tr ++ [Event.forkCall env.forkRet], -1, pPid0)
    else (tr ++ [Event.forkCall env.forkRet], ptm, env.forkRet)

/-- Java_org_mosh_MoshClient_forkExec (org_mosh_MoshClient.cpp lines
201-249): declares uninitialized locals procId and ptm, runs
create_mosh_client on a joined thread, and delivers the final (ptm, procId)
pair to the Java caller. pPid0 is the indeterminate initial value of the
uninitialized procId local. -/
def forkExec (env : SpawnEnv) (pPid0 : Int) : Int × Int :=
  let r := create_mosh_client env pPid0
  (r.2.1, r.2.2)

/-- Condition under which create_subprocess (and hence createSubprocess)
fails: any stage of PTY open, grant, unlock, name lookup, or fork failed. -/
def spawnFailsExec (env : SpawnEnv) : Bool :=
  env.openPtmxRet < 0 || env.grantptRet != 0 || env.unlockptRet != 0 ||
    !env.ptsnameOk || env.forkRet < 0

/-- Condition under which create_mosh_client (and hence forkExec) fails: any
stage of PTY open, unlock, name lookup, or fork failed. -/
def spawnFailsMosh (env : SpawnEnv) : Bool :=
  env.openPtmxRet < 0 || env.unlockptRet != 0 || !env.ptsnameOk ||
    env.forkRet < 0

/-- Outcomes of the calls made by setPtyWindowSize: the descriptor extracted
from the java.io.FileDescriptor object, whether a Java exception was pending
after that extraction, and the result of the TIOCSWINSZ ioctl. -/
structure ResizeEnv where
  fdFromDescriptor : Int
  exceptionPending : Bool
  ioctlRet : Int
  deriving DecidableEq

/-- How a resize call ends: early return because an exception was pending
after descriptor extraction; the ioctl was issued with the given request and
its result discarded; or a fatal error raised to the caller (no branch of the
embedded code produces this). -/
inductive ResizeOutcome where
  | earlyReturn
  | ioctlIssued (fd row col xpixel ypixel ret : Int)
  | fatalError
  deriving DecidableEq

/-- Java_org_mosh_MoshClient_setPtyWindowSize (org_mosh_MoshClient.cpp lines
101-117) and Java_com_google_ase_Exec_setPtyWindowSize
(com_google_ase_Exec.cpp lines 165-183), which are the same code: extract the
descriptor, return early if an exception is pending, fill a winsize struct,
issue the TIOCSWINSZ ioctl, and discard its result. The declared return type
is void, modelled as Unit: that Unit is the only value the Java caller
receives. -/
def setPtyWindowSize (env : ResizeEnv) (row col xpixel ypixel : Int) :
    ResizeOutcome × Unit :=
  if env.exceptionPending then (ResizeOutcome.earlyReturn, ())
  else
    (ResizeOutcome.ioctlIssued env.fdFromDescriptor row col xpixel ypixel
      env.ioctlRet, ())

/-- Low seven bits of a wait status word; per the platform macros, the status
encodes a normal exit exactly when these bits are zero. -/
def WTERMSIG (s : Nat) : Nat := s % 128

/-- The WIFEXITED macro of the platform: true when the terminating-signal
bits are zero. -/
def WIFEXITED (s : Nat) : Bool := WTERMSIG s == 0

/-- The WEXITSTATUS macro of the platform: bits eight to fifteen of the
status word. -/
def WEXITSTATUS (s : Nat) : Nat := (s / 256) % 256

/-- Java_org_mosh_MoshClient_waitFor (org_mosh_MoshClient.cpp lines 119-128)
and Java_com_google_ase_Exec_waitFor (com_google_ase_Exec.cpp lines 185-194),
which are the same code: declare an uninitialized local status word, call
waitpid without checking its result, and return WEXITSTATUS of the status
word if WIFEXITED holds of it, else 0. delivered is the status word waitpid
wrote, or none when waitpid failed and wrote nothing; statusInit is the
indeterminate initial value of the uninitialized local. -/
def waitFor (delivered : Option Nat) (statusInit : Nat) : Nat :=
  let status := delivered.getD statusInit
  if WIFEXITED status then WEXITSTATUS status else 0

/-- Modelled from the Linux wait status encoding: a process that exited
normally with code n yields the status word with n in bits eight to
fifteen and zero low bits. -/
def encodeExit (n : Nat) : Nat := 256 * n

/-- Modelled from the Linux wait status encoding: a process terminated by
signal sig yields sig in the low seven bits, plus the core-dump flag bit. -/
def encodeSignaled (sig : Nat) (core : Bool) : Nat :=
  sig + (if core then 128 else 0)

/-- Modelled from the Linux wait status encoding: a stopped process yields
127 in the low byte and the stop signal in bits eight to fifteen. -/
def encodeStopped (sig : Nat) : Nat := 127 + 256 * sig

/-- The process-wide environment variable table, as an association list. -/
abbrev EnvTable := List (String × String)

/-- Lookup of a name in the environment table (POSIX getenv). -/
def envGet : EnvTable → String → Option String
  | [], _ => none
  | (m, w) :: t, n => if m = n then some w else envGet t n

/-- Update of the environment table with overwrite (the effect of a
successful POSIX setenv with overwrite = 1). -/
def envSet : EnvTable → String → String → EnvTable
  | [], n, v => [(n, v)]
  | (m, w) :: t, n, v => if m = n then (n, v) :: t else (m, w) :: envSet t n v

/-- POSIX validity of a variable name: nonempty and without an equals sign;
setenv fails with EINVAL otherwise. -/
def validName (n : String) : Bool := !(n == "") && !(n.data.contains '=')

/-- Java_org_mosh_MoshClient_setenv (org_mosh_MoshClient.cpp lines 93-99):
converts the two Java strings and returns the result of the libc call
setenv(name, value, 1). Modelled from POSIX setenv semantics: on success the
table is updated in place with overwrite and 0 is returned; on an invalid
name or allocation failure (allocOk = false) the table is unchanged and -1 is
returned. -/
def setenv_model (t : EnvTable) (n v : String) (allocOk : Bool) :
    EnvTable × Int :=
  if validName n && allocOk then (envSet t n v, 0) else (t, -1)

/-- Environment seen by a spawned child. Modelled from POSIX fork and exec
semantics: fork copies the parent environment and execl passes the current
environ pointer, and the in-process mosh_client_main call shares it directly,
so the child observes exactly the table of the parent at spawn time. -/
def childEnvAtSpawn (t : EnvTable) : EnvTable := t

/-- East-Asian-width classes returned by the ICU property lookup
u_getIntPropertyValue with UCHAR_EAST_ASIAN_WIDTH. -/
inductive EAClass where
  | fullwidth
  | wide
  | halfwidth
  | narrow
  | neutral
  | ambiguous
  deriving DecidableEq

/-- Attribute byte stored by the switch in the measure loop
(org_connectbot_util_EastAsianWidth.c lines 58-75): 1 for fullwidth and wide,
0 for halfwidth and narrow, and the eastAsian flag decides neutral and
ambiguous (and any other value). -/
def eaAttr (eastAsian : Bool) : EAClass → Nat
  | .fullwidth => 1
  | .wide => 1
  | .halfwidth => 0
  | .narrow => 0
  | _ => if eastAsian then 1 else 0

/-- True on UTF-16 lead surrogates (the U16_IS_LEAD macro). -/
def isLead (u : Nat) : Bool := 0xD800 ≤ u && u ≤ 0xDBFF

/-- True on UTF-16 trail surrogates (the U16_IS_TRAIL macro). -/
def isTrail (u : Nat) : Bool := 0xDC00 ≤ u && u ≤ 0xDFFF

/-- The ICU U16_NEXT macro over a buffer of UTF-16 code units: reads the unit
at i and advances i by one; if that unit is a lead surrogate, the advanced
index is still below en, and the following unit is a trail surrogate, it
combines them into a supplementary code point and advances once more. Returns
the advanced index and the decoded code point. -/
def u16Next (buf : Nat → Nat) (i en : Nat) : Nat × Nat :=
  if isLead (buf i) ∧ i + 1 < en ∧ isTrail (buf (i + 1)) then
    (i + 2, 0x10000 + (buf i - 0xD800) * 0x400 + (buf (i + 1) - 0xDC00))
  else (i + 1, buf i)

/-- The loop of Java_org_connectbot_util_EastAsianWidth_measure
(org_connectbot_util_EastAsianWidth.c lines 54-76), abstracted to the ordered
list of stores it performs into the attributes array: while i is below en it
decodes a code point with U16_NEXT, which advances i, and then stores the
attribute of that code point at the advanced index i. Each list entry is the
pair of store index and stored value. -/
def measureWrites (buf : Nat → Nat) (eaOf : Nat → EAClass) (eastAsian : Bool)
    (i en : Nat) : List (Nat × Nat) :=
  if _h : i < en then
    ((u16Next buf i en).1, eaAttr eastAsian (eaOf (u16Next buf i en).2)) ::
      measureWrites buf eaOf eastAsian (u16Next buf i en).1 en
  else []
termination_by en - i
decreasing_by
  simp only [u16Next]
  split <;> simp <;> omega

/-- C2: for a process whose termination waitpid reports, waitFor returns the
exit status n (n in [0, 255]) when the process exited normally, and returns 0
when it was terminated by a signal or stopped. -/
theorem c2_waitFor_exit_status (n sig u : Nat) (core : Bool)
    (hn : n ≤ 255) (hs1 : 1 ≤ sig) (hs2 : sig ≤ 126) :
    waitFor (some (encodeExit n)) u = n ∧
    waitFor (some (encodeSignaled sig core)) u = 0 ∧
    waitFor (some (encodeStopped sig)) u = 0 := by
  refine ⟨?_, ?_, ?_⟩
  · have h1 : 256 * n % 128 = 0 := by omega
    have h2 : 256 * n / 256 % 256 = n := by omega
    simp [waitFor, WIFEXITED, WTERMSIG, WEXITSTATUS, encodeExit, h1, h2]
    omega
  · cases core <;>
    · have h1 : ¬ (sig + (if False then 128 else 0)) % 128 = 0 := by
        simp; omega
      have h2 : ¬ (sig + (if True then 128 else 0)) % 128 = 0 := by
        simp; omega
      simp only [waitFor, WIFEXITED, WTERMSIG, WEXITSTATUS, encodeSignaled,
        Option.getD, beq_iff_eq, cond_false, cond_true]
      split <;> simp_all <;> omega
  · have h1 : ¬ (127 + 256 * sig) % 128 = 0 := by omega
    simp only [waitFor, WIFEXITED, WTERMSIG, WEXITSTATUS, encodeStopped,
      Option.getD, beq_iff_eq]
    split <;> simp_all

/-- Witness for C2 at n = 3, sig = 9, with an arbitrary initial word 17. -/
theorem c2_witness :
    waitFor (some (encodeExit 3)) 17 = 3 ∧
    waitFor (some (encodeSignaled 9 false)) 17 = 0 ∧
    waitFor (some (encodeStopped 9)) 17 = 0 :=
  c2_waitFor_exit_status 3 9 17 false (by decide) (by decide) (by decide)

/-- C9: when waitpid fails and writes nothing, waitFor computes its result
from the indeterminate initial value of the local status word, so the result
is unspecified: with initial word 1792 it returns 7, with initial word 9 it
returns 0, hence the result is neither a fixed error value nor a guaranteed
0. -/
theorem c9_waitFor_unchecked :
    waitFor none 1792 = 7 ∧ waitFor none 9 = 0 ∧
    waitFor none 1792 ≠ waitFor none 9 := by decide

/-- C3: every failure path of the child branch is terminal. In the
create_subprocess child, if opening the slave device fails or execl fails to
replace the process image, the child exits immediately with status byte 255
(from exit(-1)), which is nonzero; in the create_mosh_client child, if
opening the slave device fails, the child exits immediately with status byte
255; and neither child branch ever returns normally into parent-process
code. -/
theorem c3_child_failure_terminal (env : SpawnEnv) (pid ptm : Int)
    (cmd : String) :
    ((env.openSlaveRet < 0 ∨ env.execlOk = false) →
      (execChild env pid ptm cmd).outcome = ChildOutcome.exited 255) ∧
    (env.openSlaveRet < 0 →
      (moshChild env pid ptm).outcome = ChildOutcome.exited 255) ∧
    (255 : Nat) ≠ 0 ∧
    (execChild env pid ptm cmd).outcome ≠ ChildOutcome.returnedNormally ∧
    (moshChild env pid ptm).outcome ≠ ChildOutcome.returnedNormally := by
  have hb : exitStatusByte (-1) = 255 := by decide
  have h1 : exitStatusByte 1 = 1 := by decide
  unfold execChild moshChild
  split_ifs <;> simp_all

/-- Witness for C3: slave open fails (descriptor -1) and execl would fail. -/
theorem c3_witness :
    (execChild ⟨5, 0, 0, true, "s", 7, -1, false⟩ 7 5 "/bin/sh").outcome =
      ChildOutcome.exited 255 ∧
    (moshChild ⟨5, 0, 0, true, "s", 7, -1, false⟩ 7 5).outcome =
      ChildOutcome.exited 255 := by
  have h := c3_child_failure_terminal ⟨5, 0, 0, true, "s", 7, -1, false⟩ 7 5
    "/bin/sh"
  exact ⟨h.1 (Or.inl (by decide)), h.2.1 (by decide)⟩

/-- C5 counterexample: on a fully successful spawn, the create_mosh_client
child never replaces its process image: its trace contains no execl call and
its outcome is not a process-image replacement (it is an in-process call to
mosh_client_main followed by _exit(1)). -/
theorem c5_counterexample :
    ((moshChild ⟨5, 0, 0, true, "s", 7, 6, true⟩ 7 5).events.all
      (fun e => !e.isExecl)) = true ∧
    (moshChild ⟨5, 0, 0, true, "s", 7, 6, true⟩ 7 5).outcome.isExeced =
      false := by decide

/-- C5 amended: on a successful spawn the create_subprocess child performs,
in order, setsid (after which its session id equals its own pid), open of the
slave device, dup2 of the slave onto descriptors 0, 1 and 2, close of the
master descriptor, and then execl replaces the process image; the
create_mosh_client child performs the same sequence (preceded by a prctl name
change) but ends by calling mosh_client_main in-process and then _exit(1)
instead of replacing its process image. -/
theorem c5_child_step_order (env : SpawnEnv) (pid ptm : Int) (cmd : String)
    (hpts : 0 ≤ env.openSlaveRet) (hexec : env.execlOk = true) :
    execChild env pid ptm cmd =
      { events := [Event.setsidCall, Event.openSlave env.openSlaveRet,
          Event.dup2 env.openSlaveRet 0, Event.dup2 env.openSlaveRet 1,
          Event.dup2 env.openSlaveRet 2, Event.closeFd ptm,
          Event.execlCall cmd]
        outcome := ChildOutcome.execed cmd
        sid := pid } ∧
    moshChild env pid ptm =
      { events := [Event.prctlSetName, Event.setsidCall,
          Event.openSlave env.openSlaveRet, Event.dup2 env.openSlaveRet 0,
          Event.dup2 env.openSlaveRet 1, Event.dup2 env.openSlaveRet 2,
          Event.closeFd ptm, Event.moshClientMain, Event.exitCall 1]
        outcome := ChildOutcome.exited 1
        sid := pid } ∧
    (execChild env pid ptm cmd).sid = pid ∧
    (moshChild env pid ptm).sid = pid := by
  have h1 : exitStatusByte 1 = 1 := by decide
  have h2 : ¬ env.openSlaveRet < 0 := by omega
  unfold execChild moshChild
  split_ifs <;> simp_all

/-- Witness for C5 amended at a concrete successful environment. -/
theorem c5_witness :
    execChild ⟨5, 0, 0, true, "s", 7, 6, true⟩ 7 5 "/bin/sh" =
      { events := [Event.setsidCall, Event.openSlave 6, Event.dup2 6 0,
          Event.dup2 6 1, Event.dup2 6 2, Event.closeFd 5,
          Event.execlCall "/bin/sh"]
        outcome := ChildOutcome.execed "/bin/sh"
        sid := 7 } ∧
    moshChild ⟨5, 0, 0, true, "s", 7, 6, true⟩ 7 5 =
      { events := [Event.prctlSetName, Event.setsidCall, Event.openSlave 6,
          Event.dup2 6 0, Event.dup2 6 1, Event.dup2 6 2, Event.closeFd 5,
          Event.moshClientMain, Event.exitCall 1]
        outcome := ChildOutcome.exited 1
        sid := 7 } := by
  have h := c5_child_step_order ⟨5, 0, 0, true, "s", 7, 6, true⟩ 7 5 "/bin/sh"
    (by decide) (by decide)
  exact ⟨h.1, h.2.1⟩

/-- C1 counterexample: a spawn that fails at grantpt (after /dev/ptmx opened
as descriptor 5) delivers the sentinel -1 as the handle, but delivers as the
process id the indeterminate prior value 42 of the uninitialized local, which
is not a sentinel failure value; likewise a mosh spawn failing at unlockpt
delivers the prior value 99. -/
theorem c1_counterexample :
    createSubprocess ⟨5, 1, 0, true, "s", 7, 6, true⟩ 42 = (-1, 42) ∧
    ¬ (42 : Int) < 0 ∧
    forkExec ⟨5, 0, 1, true, "s", 7, 6, true⟩ 99 = (-1, 99) ∧
    ¬ (99 : Int) < 0 := by decide

/-- C1 amended: a failed spawn delivers the sentinel -1 as the PTY handle but
leaves the process-id out-parameter unwritten, so the caller observes its
prior indeterminate value; a successful spawn delivers exactly the one fresh
master descriptor paired with the one child process id. -/
theorem c1_spawn_outputs (env : SpawnEnv) (procId0 pPid0 : Int) :
    (createSubprocess env procId0 =
      if spawnFailsExec env then (-1, procId0)
      else (env.openPtmxRet, env.forkRet)) ∧
    (forkExec env pPid0 =
      if spawnFailsMosh env then (-1, pPid0)
      else (env.openPtmxRet, env.forkRet)) := by
  obtain ⟨o, g, u, p, s, f, os, e⟩ := env
  constructor <;>
  · simp only [createSubprocess, create_subprocess, openPtyExecPart,
      spawnFailsExec, forkExec, create_mosh_client, openPtyMoshPart,
      spawnFailsMosh]
    split_ifs <;> simp_all <;> omega

/-- C4 counterexample: a resize whose ioctl fails (result -1, on the invalid
descriptor -1) delivers to the Java caller exactly the same value as a resize
whose ioctl succeeds, namely the empty void value, so no failure indicator is
returned; the failing ioctl result is simply discarded. -/
theorem c4_counterexample :
    (setPtyWindowSize ⟨-1, false, -1⟩ 24 80 0 0).2 =
      (setPtyWindowSize ⟨9, false, 0⟩ 24 80 0 0).2 ∧
    (setPtyWindowSize ⟨-1, false, -1⟩ 24 80 0 0).1 =
      ResizeOutcome.ioctlIssued (-1) 24 80 0 0 (-1) := by decide

/-- C4 amended: setPtyWindowSize returns void, so the caller receives the
same empty value whether the ioctl fails or succeeds (no failure indicator);
the operation never raises a fatal error, and unless a Java exception was
already pending it issues the TIOCSWINSZ ioctl and discards its result, so a
failed ioctl never aborts the session. -/
theorem c4_resize_nonfatal (e1 e2 : ResizeEnv) (r c x y : Int) :
    (setPtyWindowSize e1 r c x y).2 = (setPtyWindowSize e2 r c x y).2 ∧
    (setPtyWindowSize e1 r c x y).1 ≠ ResizeOutcome.fatalError ∧
    (e1.exceptionPending = false →
      (setPtyWindowSize e1 r c x y).1 =
        ResizeOutcome.ioctlIssued e1.fdFromDescriptor r c x y e1.ioctlRet) := by
  unfold setPtyWindowSize
  split_ifs <;> simp_all

/-- Witness for C4 amended: failing ioctl on an invalid descriptor against a
succeeding one. -/
theorem c4_witness :
    (setPtyWindowSize ⟨-1, false, -1⟩ 24 80 0 0).2 =
      (setPtyWindowSize ⟨9, false, 0⟩ 24 80 0 0).2 ∧
    (setPtyWindowSize ⟨-1, false, -1⟩ 24 80 0 0).1 ≠
      ResizeOutcome.fatalError ∧
    ((-1 : Int), false, (-1 : Int)).2.1 = false ∧
    (setPtyWindowSize ⟨-1, false, -1⟩ 24 80 0 0).1 =
      ResizeOutcome.ioctlIssued (-1) 24 80 0 0 (-1) := by
  have h := c4_resize_nonfatal ⟨-1, false, -1⟩ ⟨9, false, 0⟩ 24 80 0 0
  exact ⟨h.1, h.2.1, rfl, h.2.2 rfl⟩

/-- C6 counterexample: a successful create_mosh_client PTY allocation (master
descriptor 5, slave name s) performs no grantpt call at all, so the
PTY-allocation prefix does not grant the slave device in that version. -/
theorem c6_counterexample :
    (openPtyMoshPart ⟨5, 1, 0, true, "s", 7, 6, true⟩).2 = some (5, "s") ∧
    ((openPtyMoshPart ⟨5, 1, 0, true, "s", 7, 6, true⟩).1.all
      (fun e => !e.isGrantpt)) = true := by decide

/-- C6 amended: the PTY-allocation prefix opens the multiplexer, marks the
master descriptor close-on-exec, and unlocks the slave device, with
create_subprocess additionally granting it first while create_mosh_client
performs no grant; it delivers the master descriptor together with the slave
name, and reports the failure sentinel exactly when the open fails or the
grant, unlock or name-lookup step fails (grant only in the create_subprocess
version). -/
theorem c6_openPty_contract (env : SpawnEnv) :
    ((openPtyExecPart env).2 = none ↔
      env.openPtmxRet < 0 ∨ env.grantptRet ≠ 0 ∨ env.unlockptRet ≠ 0 ∨
        env.ptsnameOk = false) ∧
    ((openPtyMoshPart env).2 = none ↔
      env.openPtmxRet < 0 ∨ env.unlockptRet ≠ 0 ∨ env.ptsnameOk = false) ∧
    ((openPtyExecPart env).2 = none ∨
      (openPtyExecPart env).2 = some (env.openPtmxRet, env.slaveName)) ∧
    ((openPtyMoshPart env).2 = none ∨
      (openPtyMoshPart env).2 = some (env.openPtmxRet, env.slaveName)) ∧
    (0 ≤ env.openPtmxRet →
      Event.setCloexec env.openPtmxRet ∈ (openPtyExecPart env).1 ∧
      Event.setCloexec env.openPtmxRet ∈ (openPtyMoshPart env).1) := by
  obtain ⟨o, g, u, p, s, f, os, e⟩ := env
  simp only [openPtyExecPart, openPtyMoshPart]
  split_ifs <;> simp_all <;> omega

/-- Witness for C6 amended at a successful environment. -/
theorem c6_witness :
    ((openPtyExecPart ⟨5, 0, 0, true, "s", 7, 6, true⟩).2 = none ↔
      (5 : Int) < 0 ∨ (0 : Int) ≠ 0 ∨ (0 : Int) ≠ 0 ∨ true = false) ∧
    ((openPtyMoshPart ⟨5, 0, 0, true, "s", 7, 6, true⟩).2 = none ↔
      (5 : Int) < 0 ∨ (0 : Int) ≠ 0 ∨ true = false) ∧
    ((openPtyExecPart ⟨5, 0, 0, true, "s", 7, 6, true⟩).2 = none ∨
      (openPtyExecPart ⟨5, 0, 0, true, "s", 7, 6, true⟩).2 = some (5, "s")) ∧
    ((openPtyMoshPart ⟨5, 0, 0, true, "s", 7, 6, true⟩).2 = none ∨
      (openPtyMoshPart ⟨5, 0, 0, true, "s", 7, 6, true⟩).2 = some (5, "s")) ∧
    ((0 : Int) ≤ 5 →
      Event.setCloexec 5 ∈ (openPtyExecPart ⟨5, 0, 0, true, "s", 7, 6, true⟩).1 ∧
      Event.setCloexec 5 ∈ (openPtyMoshPart ⟨5, 0, 0, true, "s", 7, 6, true⟩).1) :=
  c6_openPty_contract ⟨5, 0, 0, true, "s", 7, 6, true⟩

/-- C10: when /dev/ptmx was opened successfully but a later allocation step
fails, the spawn returns the failure sentinel without ever closing the opened
master descriptor: the trace contains the successful open and no close call,
so each such failed spawn leaks one open PTY master descriptor in the calling
process. -/
theorem c10_failed_spawn_leaks_master (env : SpawnEnv) (pPid0 : Int)
    (hopen : 0 ≤ env.openPtmxRet) :
    ((env.grantptRet ≠ 0 ∨ env.unlockptRet ≠ 0 ∨ env.ptsnameOk = false) →
      (create_subprocess env).2.1 = -1 ∧
      (create_subprocess env).2.2 = none ∧
      Event.openPtmx env.openPtmxRet ∈ (create_subprocess env).1 ∧
      ((create_subprocess env).1.all (fun e => !e.isCloseFd)) = true) ∧
    ((env.unlockptRet ≠ 0 ∨ env.ptsnameOk = false) →
      (create_mosh_client env pPid0).2.1 = -1 ∧
      Event.openPtmx env.openPtmxRet ∈ (create_mosh_client env pPid0).1 ∧
      ((create_mosh_client env pPid0).1.all (fun e => !e.isCloseFd)) = true) := by
  constructor <;>
  · intro hfail
    simp only [create_subprocess, openPtyExecPart, create_mosh_client,
      openPtyMoshPart]
    split_ifs <;> first | omega | simp_all [Event.isCloseFd]

/-- Witness for C10: open succeeded as descriptor 5, unlockpt fails. -/
theorem c10_witness :
    (create_subprocess ⟨5, 0, 1, true, "s", 7, 6, true⟩).2.1 = -1 ∧
    (create_subprocess ⟨5, 0, 1, true, "s", 7, 6, true⟩).2.2 = none ∧
    Event.openPtmx 5 ∈ (create_subprocess ⟨5, 0, 1, true, "s", 7, 6, true⟩).1 ∧
    ((create_subprocess ⟨5, 0, 1, true, "s", 7, 6, true⟩).1.all
      (fun e => !e.isCloseFd)) = true ∧
    (create_mosh_client ⟨5, 0, 1, true, "s", 7, 6, true⟩ 99).2.1 = -1 ∧
    Event.openPtmx 5 ∈
      (create_mosh_client ⟨5, 0, 1, true, "s", 7, 6, true⟩ 99).1 ∧
    ((create_mosh_client ⟨5, 0, 1, true, "s", 7, 6, true⟩ 99).1.all
      (fun e => !e.isCloseFd)) = true := by
  have h := c10_failed_spawn_leaks_master ⟨5, 0, 1, true, "s", 7, 6, true⟩ 99
    (by decide)
  have h1 := h.1 (Or.inr (Or.inl (by decide)))
  have h2 := h.2 (Or.inl (by decide))
  exact ⟨h1.1, h1.2.1, h1.2.2.1, h1.2.2.2, h2.1, h2.2.1, h2.2.2⟩

/-- Updating a name and then looking it up yields the new value. -/
theorem envGet_envSet (t : EnvTable) (n v : String) :
    envGet (envSet t n v) n = some v := by
  induction t with
  | nil => simp [envSet, envGet]
  | cons hd tl ih =>
    obtain ⟨m, w⟩ := hd
    by_cases h : m = n <;> simp [envSet, envGet, h, ih]

/-- Updating a different name leaves a lookup unchanged. -/
theorem envGet_envSet_ne (t : EnvTable) (m w n : String) (h : m ≠ n) :
    envGet (envSet t m w) n = envGet t n := by
  induction t with
  | nil => simp [envSet, envGet, h]
  | cons hd tl ih =>
    obtain ⟨a, b⟩ := hd
    by_cases ha : a = m <;> simp [envSet, envGet, ha, h, ih]

/-- C7: a successful environment override of name n to value v returns the
success indicator 0 and updates the process-wide table so that the child of
any later spawn observes v for n, even after further overrides of other
names; a failed override returns the failure indicator -1 and leaves the
table unchanged. -/
theorem c7_setenv_visible_in_child (t : EnvTable) (n v m w : String)
    (hn : validName n = true) (hm : m ≠ n) :
    (setenv_model t n v true).2 = 0 ∧
    envGet (childEnvAtSpawn (setenv_model t n v true).1) n = some v ∧
    envGet (childEnvAtSpawn
      (setenv_model (setenv_model t n v true).1 m w true).1) n = some v ∧
    (setenv_model t n v false).2 = -1 ∧
    (setenv_model t n v false).1 = t := by
  refine ⟨?_, ?_, ?_, ?_, ?_⟩
  · simp [setenv_model, hn]
  · simp [setenv_model, childEnvAtSpawn, hn, envGet_envSet]
  · by_cases hmv : validName m = true <;>
      simp [setenv_model, childEnvAtSpawn, hn, hmv, envGet_envSet,
        envGet_envSet_ne _ _ _ _ hm]
  · simp [setenv_model]
  · simp [setenv_model]

/-- Witness for C7: override LANG to C, then override TERM, and the child
still sees LANG equal to C; a failed override reports -1. -/
theorem c7_witness :
    (setenv_model [] "LANG" "C" true).2 = 0 ∧
    envGet (childEnvAtSpawn (setenv_model [] "LANG" "C" true).1) "LANG" =
      some "C" ∧
    envGet (childEnvAtSpawn
      (setenv_model (setenv_model [] "LANG" "C" true).1 "TERM" "xterm"
        true).1) "LANG" = some "C" ∧
    (setenv_model [] "LANG" "C" false).2 = -1 ∧
    (setenv_model [] "LANG" "C" false).1 = [] :=
  c7_setenv_visible_in_child [] "LANG" "C" "TERM" "xterm" (by decide)
    (by decide)

/-- The post-advance index of the decoder is strictly above the starting
index of the decoded code point. -/
theorem u16Next_fst_lt (buf : Nat → Nat) (i en : Nat) :
    i < (u16Next buf i en).1 := by
  unfold u16Next
  split <;> simp

/-- Inside the region, the post-advance index never passes en: the decoder
advances by two only when the advanced index is still below en. -/
theorem u16Next_fst_le (buf : Nat → Nat) (i en : Nat) (h : i < en) :
    (u16Next buf i en).1 ≤ en := by
  unfold u16Next
  split
  · rename_i hc
    omega
  · omega

/-- Every store of the measure loop lands strictly after the index at which
its iteration started and no later than en. -/
theorem measureWrites_bounds (buf : Nat → Nat) (eaOf : Nat → EAClass)
    (ea : Bool) :
    ∀ fuel i en, en - i ≤ fuel →
      ∀ p ∈ measureWrites buf eaOf ea i en, i < p.1 ∧ p.1 ≤ en := by
  intro fuel
  induction fuel with
  | zero =>
    intro i en hf p hp
    rw [measureWrites, dif_neg (by omega)] at hp
    exact absurd hp (List.not_mem_nil p)
  | succ f ih =>
    intro i en hf p hp
    rw [measureWrites] at hp
    by_cases h : i < en
    · rw [dif_pos h] at hp
      rcases List.mem_cons.mp hp with heq | hmem
      · subst heq
        exact ⟨u16Next_fst_lt buf i en, u16Next_fst_le buf i en h⟩
      · have hlt := u16Next_fst_lt buf i en
        have := ih (u16Next buf i en).1 en (by omega) p hmem
        exact ⟨by omega, this.2⟩
    · rw [dif_neg h] at hp
      exact absurd hp (List.not_mem_nil p)

/-- When the region is nonempty, the last store of the measure loop lands at
exactly en, one past the end of the scanned region. -/
theorem measureWrites_last (buf : Nat → Nat) (eaOf : Nat → EAClass)
    (ea : Bool) :
    ∀ fuel i en, en - i ≤ fuel → i < en →
      ∃ v, (measureWrites buf eaOf ea i en).getLast? = some (en, v) := by
  intro fuel
  induction fuel with
  | zero => intro i en hf hi; omega
  | succ f ih =>
    intro i en hf hi
    rw [measureWrites, dif_pos hi]
    have hlt := u16Next_fst_lt buf i en
    have hle := u16Next_fst_le buf i en hi
    by_cases h2 : (u16Next buf i en).1 < en
    · obtain ⟨v, hv⟩ := ih (u16Next buf i en).1 en (by omega) h2
      refine ⟨v, ?_⟩
      cases hMW : measureWrites buf eaOf ea (u16Next buf i en).1 en with
      | nil => rw [hMW] at hv; simp at hv
      | cons q qs =>
        rw [hMW] at hv
        rw [List.getLast?_cons_cons]
        exact hv
    · have hen : (u16Next buf i en).1 = en := by omega
      refine ⟨eaAttr ea (eaOf (u16Next buf i en).2), ?_⟩
      rw [measureWrites, dif_neg (by omega)]
      simp [hen]

/-- C8: over the region from start to start + len, every attribute store of
the measure loop lands at the index the decoder advanced to, which is
strictly after the starting index of the decoded code point; hence the index
start itself is never stored to, every store lands in the half-open range
above start and at most start + len, and for a nonempty region the final
store lands at exactly start + len, one past the region. -/
theorem c8_measure_writes_shifted (buf : Nat → Nat) (eaOf : Nat → EAClass)
    (ea : Bool) (start len : Nat) (hlen : 0 < len) :
    (∀ p ∈ measureWrites buf eaOf ea start (start + len),
      start < p.1 ∧ p.1 ≤ start + len) ∧
    (∀ p ∈ measureWrites buf eaOf ea start (start + len), p.1 ≠ start) ∧
    (∃ v, (measureWrites buf eaOf ea start (start + len)).getLast? =
      some (start + len, v)) ∧
    (∀ i, i < start + len →
      ∃ v rest, measureWrites buf eaOf ea i (start + len) =
        ((u16Next buf i (start + len)).1, v) :: rest ∧
        i < (u16Next buf i (start + len)).1) := by
  refine ⟨?_, ?_, ?_, ?_⟩
  · exact measureWrites_bounds buf eaOf ea (start + len) start (start + len)
      (by omega)
  · intro p hp
    have := measureWrites_bounds buf eaOf ea (start + len) start (start + len)
      (by omega) p hp
    omega
  · exact measureWrites_last buf eaOf ea (start + len) start (start + len)
      (by omega) (by omega)
  · intro i hi
    refine ⟨eaAttr ea (eaOf (u16Next buf i (start + len)).2),
      measureWrites buf eaOf ea (u16Next buf i (start + len)).1 (start + len),
      ?_, u16Next_fst_lt buf i (start + len)⟩
    rw [measureWrites, dif_pos hi]

/-- Witness for C8 on a concrete two-unit buffer of basic-plane characters:
the stores land at indices 1 and 2, never at 0, and the last store is at
index 2, one past the region. -/
theorem c8_witness :
    (∀ p ∈ measureWrites (fun _ => 65) (fun _ => EAClass.narrow) false 0
      (0 + 2), 0 < p.1 ∧ p.1 ≤ 0 + 2) ∧
    (∀ p ∈ measureWrites (fun _ => 65) (fun _ => EAClass.narrow) false 0
      (0 + 2), p.1 ≠ 0) ∧
    (∃ v, (measureWrites (fun _ => 65) (fun _ => EAClass.narrow) false 0
      (0 + 2)).getLast? = some (0 + 2, v)) ∧
    (∀ i, i < 0 + 2 →
      ∃ v rest, measureWrites (fun _ => 65) (fun _ => EAClass.narrow) false i
        (0 + 2) =
        ((u16Next (fun _ => 65) i (0 + 2)).1, v) :: rest ∧
        i < (u16Next (fun _ => 65) i (0 + 2)).1) :=
  c8_measure_writes_shifted (fun _ => 65) (fun _ => EAClass.narrow) false 0 2
    (by decide)

end ConnectBot
